import Mathlib

/-!
Verification development for the backgammonjs invite-only server
(`src/app/server/server.js`).  The server-side request handlers are embedded
shallowly: JavaScript object mutation becomes explicit state passing over a
`SrvState` record holding the canonical `players`/`matches` registries, and a
`Conn` record holding the per-socket bindings (`socket.player`,
`socket.match`, `socket.rule`).  The board `State` is opaque in the source
(manipulated only through the rule engine), so it is a type parameter `S`
here, and the rule engine is a record of pure operations.  JavaScript
reference aliasing between a socket's bound match/player and the registry
entries is rendered by storing ids on the connection and resolving/updating
through the registries, which coincides with the source under its invariant
that socket bindings always point into the registries.  A handler branch
where the JavaScript code would throw a `TypeError` (dereferencing a missing
binding) is rendered with the `threw` flag: the dispatcher's try/catch eats
the exception and no reply is sent.

Functions of `lib/model.js` and the rule engine are not part of the provided
sources; the few that the handlers call are modelled from the spec and carry
a doc comment saying so.
-/

namespace BG

/-- One character that survives slugification: an ASCII lowercase letter or a
digit, mirroring the regex class `[a-z0-9]` used by `iccjSlugify`
(`src/app/server/server.js:20`). -/
def isSlugChar (c : Char) : Bool :=
  c.isLower || c.isDigit

/-- JavaScript `String.prototype.trim`: strip leading and trailing
whitespace (rendered charwise so that concrete runs reduce in the kernel). -/
def jsTrim (s : String) : String :=
  String.mk
    (((s.data.dropWhile Char.isWhitespace).reverse.dropWhile Char.isWhitespace).reverse)

/-- JavaScript `String.prototype.toLowerCase` on the ASCII range. -/
def jsToLower (s : String) : String :=
  String.mk (s.data.map Char.toLower)

/-- Collapse every run of two or more consecutive occurrences of `a` into a
single occurrence, the effect of a regex replace of `X+` by one `X`. -/
def collapseRuns (a : Char) : List Char → List Char
  | [] => []
  | [c] => [c]
  | c :: d :: rest =>
    if c == a && d == a then collapseRuns a (d :: rest)
    else c :: collapseRuns a (d :: rest)

/-- Embedding of `iccjSlugify` (`src/app/server/server.js:17-23`): trim,
lowercase, replace each run of non-`[a-z0-9]` characters by a dash, strip
leading and trailing dashes. -/
def iccjSlugify (s : String) : String :=
  let t := jsToLower (jsTrim s)
  if t = "" then ""
  else
    let mapped := t.data.map (fun c => if isSlugChar c then c else '-')
    let collapsed := collapseRuns '-' mapped
    let noLead := collapsed.dropWhile (fun c => c == '-')
    let noTrail := (noLead.reverse.dropWhile (fun c => c == '-')).reverse
    String.mk noTrail

/-- Embedding of `iccjMatchSlug` (`src/app/server/server.js:28-33`). -/
def iccjMatchSlug (hostName guestName : String) : String :=
  let h := iccjSlugify hostName
  let g := iccjSlugify guestName
  if h ≠ "" ∧ g ≠ "" then h ++ "-vs-" ++ g
  else if h ≠ "" then h else g

/-- One character kept by the display-name cleanup, mirroring the regex class
`[A-Za-z0-9 .'\-]` of `iccjSafeDisplayName` (`src/app/server/server.js:42`). -/
def isNameChar (c : Char) : Bool :=
  c.isAlpha || c.isDigit || c == ' ' || c == '.' || c == '\'' || c == '-'

/-- Embedding of `iccjSafeDisplayName` (`src/app/server/server.js:38-47`):
trim, drop disallowed characters, collapse whitespace runs, trim, cap to 40
characters.  After the character filter the only whitespace left is the plain
space, so the `\s+` collapse is a space-run collapse. -/
def iccjSafeDisplayName (name : String) : String :=
  let t := jsTrim name
  if t = "" then ""
  else
    let kept := t.data.filter isNameChar
    let squeezed := collapseRuns ' ' kept
    let t2 := jsTrim (String.mk squeezed)
    if t2.length > 40 then (jsTrim (String.mk (t2.data.take 40))) else t2

inductive PieceType where
  | white
  | black
deriving DecidableEq

/-- The per-color cumulative score of a match (`match.score`). -/
structure ScoreMap where
  white : Nat
  black : Nat
deriving DecidableEq

def ScoreMap.get (s : ScoreMap) : PieceType → Nat
  | .white => s.white
  | .black => s.black

def ScoreMap.add (s : ScoreMap) (pt : PieceType) (v : Nat) : ScoreMap :=
  match pt with
  | .white => { s with white := s.white + v }
  | .black => { s with black := s.black + v }

abbrev PlayerId := Nat

abbrev MatchId := Nat

/-- A player record (`model.Player`).  `currentPieceType` is unset until the
player is seated in a match. -/
structure Player where
  id : PlayerId
  name : String
  socketID : Nat
  currentMatch : Option MatchId
  currentPieceType : Option PieceType
deriving DecidableEq

/-- A piece as sent by clients in `params.piece`; the handlers treat it
opaquely and hand it to the rule engine. -/
structure Piece where
  id : Nat
deriving DecidableEq

/-- Atomic board mutations returned by `rule.getMoveActions`; the handlers
only pass them around and test emptiness, so they are opaque here. -/
abbrev MoveAction := Nat

/-- A game record (`model.Game`).  `stateSnapshot` is the single retained
deep copy of the board taken at dice-roll time for undo. -/
structure Game (S : Type) where
  id : Nat
  state : S
  stateSnapshot : Option S
  hasStarted : Bool
  turnPlayer : Option Player
  turnNumber : Nat
  turnDice : Option (List Nat)
  moveSequence : Nat
deriving DecidableEq

/-- A match record (`model.Match` plus the ICCJ metadata fields the server
adds).  JavaScript `null`/absent string fields are `Option String`. -/
structure Match (S : Type) where
  id : MatchId
  host : Option Player
  guest : Option Player
  players : List PlayerId
  ruleName : String
  score : ScoreMap
  length : Nat
  currentGame : Option (Game S)
  isOver : Bool
  hostName : Option String
  guestName : Option String
  hostSlug : Option String
  slug : Option String
  name : Option String
deriving DecidableEq

/-- The rule engine interface used by the handlers.  The concrete rule code
is not among the provided sources, so the operations are fields of a record,
typed after the spec's capability list (spec section 4.1): `markAsPlayed`
only consumes dice values, `applyMoveActions` is all-or-nothing (`none`
renders a thrown apply-time failure). -/
structure Rule (S : Type) where
  name : String
  initialState : S
  rollDice : Game S → List Nat
  validateMove : Game S → Player → Piece → Nat → Bool
  getMoveActions : S → Piece → Nat → List MoveAction
  applyMoveActions : S → List MoveAction → Option S
  markAsPlayed : List Nat → Nat → List Nat
  validateConfirm : Game S → Player → Bool
  validateUndo : Game S → Player → Bool
  hasWon : S → Player → Bool
  getGameScore : S → Player → Nat

variable {S : Type}

/-- Modelled from the spec: `model.Game.diceWasRolled` (not under `src/`);
per spec section 3, a game holds "current dice (possibly empty)", and rolling
is rejected when dice were already rolled this turn. -/
def Game.diceWasRolled (g : Game S) : Bool := g.turnDice.isSome

/-- Modelled from the spec: `model.Game.snapshotState` (not under `src/`);
spec section 4.2: "rolling captures a deep snapshot of the current board
State for later undo".  In this pure embedding a value copy is a deep,
non-aliased copy. -/
def Game.snapshotState (g : Game S) : Game S :=
  { g with stateSnapshot := some g.state }

/-- Modelled from the spec: `model.Game.restoreState` (not under `src/`);
spec section 4.2: "Undo restores the board to the last roll-time snapshot". -/
def Game.restoreState (g : Game S) : Game S :=
  match g.stateSnapshot with
  | some s => { g with state := s }
  | none => g

/-- Modelled from the spec: `model.Match.isHost` (not under `src/`); a match
"owns a pair of players" and the host seat identifies its owner by id. -/
def Match.isHost (m : Match S) (p : Player) : Bool :=
  match m.host with
  | some h => h.id == p.id
  | none => false

/-- Modelled from the spec: `model.Match.addHostPlayer` (not under `src/`);
seats the host and registers the player id among the match participants. -/
def Match.addHostPlayer (m : Match S) (p : Player) : Match S :=
  { m with host := some p, players := m.players ++ [p.id] }

/-- Modelled from the spec: `model.Match.addGuestPlayer` (not under `src/`). -/
def Match.addGuestPlayer (m : Match S) (p : Player) : Match S :=
  { m with guest := some p, players := m.players ++ [p.id] }

/-- Modelled from the spec: the matchLength a fresh match is created with is
set by `model.Match.createNew`, which is not under `src/`; the spec leaves
the concrete default open (its end-to-end scenario uses matchLength 1). -/
def defaultMatchLength : Nat := 1

/-- Modelled from the spec: `model.Game.createNew` (not under `src/`); a
fresh game has an initial board, no dice, moveSequence 0 and is not started. -/
def Game.createNew (id : Nat) (rule : Rule S) : Game S :=
  { id := id, state := rule.initialState, stateSnapshot := none,
    hasStarted := false, turnPlayer := none, turnNumber := 0,
    turnDice := none, moveSequence := 0 }

/-- Modelled from the spec: `model.Match.createNew` (not under `src/`); a
fresh match has empty seats, zero scores and is not over. -/
def Match.createNew (id : MatchId) (rule : Rule S) : Match S :=
  { id := id, host := none, guest := none, players := [],
    ruleName := rule.name, score := { white := 0, black := 0 },
    length := defaultMatchLength, currentGame := none, isOver := false,
    hostName := none, guestName := none, hostSlug := none, slug := none,
    name := none }

/-- Modelled from the spec: `model.Match.createNewGame` (not under `src/`);
installs a fresh game as the match's current game. -/
def Match.createNewGame (m : Match S) (rule : Rule S) (gid : Nat) : Match S :=
  { m with currentGame := some (Game.createNew gid rule) }

/-- The per-socket bindings (`socket.player`, `socket.match`, `socket.rule`)
plus the player id parsed from the handshake cookie, when present. -/
structure Conn (S : Type) where
  socketId : Nat
  player : Option PlayerId
  matchId : Option MatchId
  rule : Option (Rule S)
  cookiePlayerId : Option PlayerId

/-- The server's process-wide registries.  `rules` renders
`model.Utils.loadRule` (rule lookup by name); `seq` is the fresh-id supply
standing in for the model's id generation.  `clients` is the set of
connected socket ids. -/
structure SrvState (S : Type) where
  players : List Player
  -- the source field is `this.matches`; `matches` is a reserved token in Lean
  matchList : List (Match S)
  clients : List Nat
  rules : String → Rule S
  seq : Nat

/-- Embedding of `Server.getPlayerByID` (`src/app/server/server.js:756-761`). -/
def getPlayerByID (srv : SrvState S) (id : PlayerId) : Option Player :=
  srv.players.find? (fun p => p.id == id)

/-- Embedding of `Server.getMatchByID` (`src/app/server/server.js:763-768`). -/
def getMatchByID (srv : SrvState S) (id : MatchId) : Option (Match S) :=
  srv.matchList.find? (fun m => m.id == id)

/-- Writing back an in-place mutation of a player object: every registry
entry with the same id takes the new value. -/
def updatePlayer (srv : SrvState S) (p : Player) : SrvState S :=
  { srv with players := srv.players.map (fun q => if q.id == p.id then p else q) }

/-- Writing back an in-place mutation of a match object. -/
def updateMatch (srv : SrvState S) (m : Match S) : SrvState S :=
  { srv with matchList := srv.matchList.map (fun x => if x.id == m.id then m else x) }

/-- Embedding of `Server.getSocketMatch` (`src/app/server/server.js:195`):
the socket's bound match, resolved through the registry. -/
def getSocketMatch (srv : SrvState S) (conn : Conn S) : Option (Match S) :=
  match conn.matchId with
  | some mid => getMatchByID srv mid
  | none => none

/-- Embedding of `Server.getSocketPlayer` (`src/app/server/server.js:197`). -/
def getSocketPlayer (srv : SrvState S) (conn : Conn S) : Option Player :=
  match conn.player with
  | some pid => getPlayerByID srv pid
  | none => none

/-- Embedding of `Server.getSocketRule` (`src/app/server/server.js:198`). -/
def getSocketRule (conn : Conn S) : Option (Rule S) :=
  conn.rule

/-- Truthiness of an optional JavaScript string: present and non-empty. -/
def strTruthy : Option String → Bool
  | some s => !(s == "")
  | none => false

/-- Truthiness of an optional JavaScript number: present and non-zero. -/
def numTruthy : Option Nat → Bool
  | some n => n != 0
  | none => false

/-- Embedding of `Server.getOpenMatchByHostSlug`
(`src/app/server/server.js:773-788`): the first not-over, guest-less match
whose `hostSlug`, `hostName` or host player name slugifies to the requested
slug. -/
def getOpenMatchByHostSlug (srv : SrvState S) (hostSlug : String) : Option (Match S) :=
  let hs := iccjSlugify hostSlug
  if hs = "" then none
  else
    srv.matchList.find? (fun m =>
      !m.isOver && m.guest.isNone &&
      ((match m.hostSlug with
        | some x => !(x == "") && (iccjSlugify x == hs)
        | none => false) ||
       (match m.hostName with
        | some x => !(x == "") && (iccjSlugify x == hs)
        | none => false) ||
       (match m.host with
        | some h => !(h.name == "") && (iccjSlugify h.name == hs)
        | none => false)))

/-- The payload fields of a broadcast that the verified claims inspect. -/
structure MsgBody where
  event : String
  winner : Option Player := none
  resigned : Option Bool := none
deriving DecidableEq

/-- One emitted socket message. -/
structure OutMsg where
  socketId : Nat
  body : MsgBody
deriving DecidableEq

/-- Embedding of `Server.sendPlayerMessage` (`src/app/server/server.js:210-214`):
drop the message when the player's socket is not connected. -/
def sendPlayerMessage (srv : SrvState S) (p : Player) (b : MsgBody) : List OutMsg :=
  if srv.clients.contains p.socketID then [⟨p.socketID, b⟩] else []

/-- The participant loop of `Server.sendMatchMessage`: resolve each player id
and emit to those with a connected socket. -/
def sendListMessage (srv : SrvState S) (b : MsgBody) : List PlayerId → List OutMsg
  | [] => []
  | pid :: rest =>
    (match getPlayerByID srv pid with
     | some p => sendPlayerMessage srv p b
     | none => []) ++ sendListMessage srv b rest

/-- Embedding of `Server.sendMatchMessage` (`src/app/server/server.js:216-221`). -/
def sendMatchMessage (srv : SrvState S) (m : Match S) (b : MsgBody) : List OutMsg :=
  sendListMessage srv b m.players

/-- The participant loop of `Server.sendOthersMessage`, skipping the excepted
player id. -/
def sendOthersList (srv : SrvState S) (exceptPlayerID : PlayerId) (b : MsgBody) :
    List PlayerId → List OutMsg
  | [] => []
  | pid :: rest =>
    (if pid == exceptPlayerID then []
     else
       match getPlayerByID srv pid with
       | some p => sendPlayerMessage srv p b
       | none => []) ++ sendOthersList srv exceptPlayerID b rest

/-- Embedding of `Server.sendOthersMessage` (`src/app/server/server.js:223-229`). -/
def sendOthersMessage (srv : SrvState S) (m : Match S) (exceptPlayerID : PlayerId)
    (b : MsgBody) : List OutMsg :=
  sendOthersList srv exceptPlayerID b m.players

/-- The union of the reply fields the handlers under study set (`reply.type`
is rendered `ptype`). -/
structure Reply where
  result : Bool := false
  errorMessage : Option String := none
  reconnected : Option Bool := none
  player : Option Player := none
  ruleName : Option String := none
  matchID : Option MatchId := none
  hostSlug : Option String := none
  slug : Option String := none
  matchName : Option String := none
  reused : Option Bool := none
  host : Option Player := none
  guest : Option Player := none
  dice : Option (List Nat) := none
  piece : Option Piece := none
  ptype : Option Nat := none
  steps : Option Nat := none
  moveActionList : Option (List MoveAction) := none
deriving DecidableEq

/-- Result of a handler that never reassigns the socket bindings: the reply,
the updated registries, the immediately emitted broadcasts, the broadcasts
scheduled via `reply.sendAfter`, and whether the handler threw (in which
case the dispatcher's catch swallows the request and no reply is sent). -/
structure Core (S : Type) where
  reply : Reply
  srv : SrvState S
  sends : List OutMsg := []
  sendAfter : List OutMsg := []
  threw : Bool := false

/-- Result of a general handler, additionally carrying the (possibly
rebound) socket bindings. -/
structure HResult (S : Type) where
  reply : Reply
  srv : SrvState S
  conn : Conn S
  sends : List OutMsg := []
  sendAfter : List OutMsg := []
  threw : Bool := false

def Core.toResult (k : Core S) (conn : Conn S) : HResult S :=
  { reply := k.reply, srv := k.srv, conn := conn, sends := k.sends,
    sendAfter := k.sendAfter, threw := k.threw }

structure CreateGuestParams where
  playerName : Option String := none
  playerID : Option PlayerId := none
deriving DecidableEq

/-- Parameters of CREATE_MATCH.  The handler never reads `ruleName`; the
field is present so that "regardless of any supplied ruleName" is
expressible. -/
structure CreateMatchParams where
  playerName : Option String := none
  hostSlug : Option String := none
  ruleName : Option String := none
deriving DecidableEq

/-- Parameters of JOIN_MATCH; `ruleName` is likewise never read. -/
structure JoinMatchParams where
  hostSlug : Option String := none
  matchID : Option MatchId := none
  ruleName : Option String := none
deriving DecidableEq

/-- Parameters of MOVE_PIECE (`params.type` rendered `ptype`). -/
structure MovePieceParams where
  piece : Option Piece := none
  ptype : Option Nat := none
  steps : Nat := 0
  moveSequence : Nat := 0
deriving DecidableEq

/-- Creation of a brand-new guest player, the tail of `handleCreateGuest`
(`src/app/server/server.js:343-353`).  `model.Player.createNew` is not under
`src/`; modelled from the spec ("identity (stable id) ... created on first
contact") with the fresh id drawn from the server's id supply. -/
def createNewGuest (srv : SrvState S) (conn : Conn S) (desiredName : String) : HResult S :=
  let pid := srv.seq
  let p : Player :=
    { id := pid,
      name := if desiredName ≠ "" then desiredName else "Player " ++ toString pid,
      socketID := conn.socketId, currentMatch := none, currentPieceType := none }
  { reply := { result := true, player := some p, reconnected := some false },
    srv := { srv with players := srv.players ++ [p], seq := srv.seq + 1 },
    conn := { conn with player := some pid } }

/-- Embedding of `Server.handleCreateGuest` (`src/app/server/server.js:301-354`).
When a stable id is supplied on an unbound socket, the found player's
`socketID` is updated immediately (line 310); the cookie branch only looks
the player up.  A found player with a live, unfinished match is silently
rebound; otherwise a fresh guest is created. -/
def handleCreateGuest (srv : SrvState S) (conn : Conn S) (params : CreateGuestParams) :
    HResult S :=
  let desiredName :=
    match params.playerName with
    | some pn => iccjSafeDisplayName pn
    | none => ""
  let step1 : Option Player × SrvState S :=
    if conn.player.isNone && numTruthy params.playerID then
      match getPlayerByID srv (params.playerID.getD 0) with
      | some q =>
        let q1 := { q with socketID := conn.socketId }
        (some q1, updatePlayer srv q1)
      | none => (none, srv)
    else
      match conn.cookiePlayerId with
      | some cid => (getPlayerByID srv cid, srv)
      | none => (none, srv)
  match step1 with
  | (some q0, srv1) =>
    let q1 := if desiredName ≠ "" then { q0 with name := desiredName } else q0
    let srv2 := updatePlayer srv1 q1
    match (match q1.currentMatch with
           | some cm => getMatchByID srv2 cm
           | none => none) with
    | some m =>
      if !m.isOver then
        let rule := srv2.rules m.ruleName
        let q2 := { q1 with socketID := conn.socketId }
        let srv3 := updatePlayer srv2 q2
        { reply := { result := true, player := some q2, reconnected := some true },
          srv := srv3,
          conn := { conn with player := some q2.id, matchId := some m.id, rule := some rule },
          sendAfter := sendPlayerMessage srv3 q2 { event := "EVENT_MATCH_START" } }
      else
        createNewGuest srv2 conn desiredName
    | none => createNewGuest srv2 conn desiredName
  | (none, srv1) => createNewGuest srv1 conn desiredName

/-- Embedding of `Server.handleCreateMatch` (`src/app/server/server.js:387-462`).
The rule is forced to `RuleBgCasual` (line 397).  The JavaScript code seats
the host and then sets `currentMatch`/`currentPieceType` on the shared
player object, so the stored host reflects those updates; the embedding
applies the updates before seating, which yields the same final state. -/
def handleCreateMatch (srv : SrvState S) (conn : Conn S) (params : CreateMatchParams) :
    HResult S :=
  match getSocketPlayer srv conn with
  | none =>
    { reply := { errorMessage := some "Player not found!" }, srv := srv, conn := conn }
  | some player0 =>
    let ruleName := "RuleBgCasual"
    let rule := srv.rules ruleName
    let player :=
      match params.playerName with
      | some pn =>
        let dn := iccjSafeDisplayName pn
        if dn ≠ "" then { player0 with name := dn } else player0
      | none => player0
    let srv1 := updatePlayer srv player
    let hostSlug0 :=
      match params.hostSlug with
      | some hs => iccjSlugify hs
      | none => ""
    let hostSlug := if hostSlug0 = "" then iccjSlugify player.name else hostSlug0
    if hostSlug = "" then
      { reply := { errorMessage := some "Host name is required." }, srv := srv1, conn := conn }
    else
      match getOpenMatchByHostSlug srv1 hostSlug with
      | some existing =>
        { reply := { result := true, player := some player, ruleName := some ruleName,
                     matchID := some existing.id, hostSlug := some hostSlug,
                     slug := some (match existing.slug with
                                   | some s => if s ≠ "" then s else hostSlug
                                   | none => hostSlug),
                     matchName := some (match existing.name with
                                        | some n => if n ≠ "" then n else player.name
                                        | none => player.name),
                     reused := some true },
          srv := srv1,
          conn := { conn with matchId := some existing.id, rule := some rule } }
      | none =>
        let mid := srv1.seq
        let m0 := Match.createNew mid rule
        let m1 :=
          { m0 with
            ruleName := ruleName, hostName := some player.name,
            hostSlug := some hostSlug, guestName := none,
            slug := some hostSlug,
            name := some (if player.name ≠ "" then player.name
                          else "Match " ++ toString mid) }
        let player2 :=
          { player with
            currentMatch := some mid, currentPieceType := some PieceType.white }
        let m2 := Match.addHostPlayer m1 player2
        let srv2 := updatePlayer srv1 player2
        let gid := srv1.seq + 1
        let m3 := Match.createNewGame m2 rule gid
        let srv3 := { srv2 with matchList := srv2.matchList ++ [m3], seq := srv1.seq + 2 }
        { reply := { result := true, player := some player2, ruleName := some ruleName,
                     matchID := some mid, hostSlug := some hostSlug, slug := m3.slug,
                     matchName := m3.name },
          srv := srv3,
          conn := { conn with matchId := some mid, rule := some rule } }

/-- Embedding of `Server.handleJoinMatch` (`src/app/server/server.js:468-530`).
Resolution prefers a truthy `hostSlug` over `matchID`.  The rule is forced
to `RuleBgCasual` (line 498).  As in `handleCreateMatch`, the guest's
`currentMatch`/`currentPieceType` updates are applied before seating, which
matches the final state of the JavaScript reference mutation.  A match
without a current game makes line 511 throw after the seat mutations; the
`threw` branch keeps those mutations. -/
def handleJoinMatch (srv : SrvState S) (conn : Conn S) (params : JoinMatchParams) :
    HResult S :=
  let mfound : Option (Match S) :=
    if strTruthy params.hostSlug then
      getOpenMatchByHostSlug srv (iccjSlugify (params.hostSlug.getD ""))
    else if numTruthy params.matchID then
      getMatchByID srv (params.matchID.getD 0)
    else none
  match mfound with
  | none =>
    { reply := { errorMessage := some "Match not found!" }, srv := srv, conn := conn }
  | some m =>
    if m.guest.isSome then
      { reply := { errorMessage := some "Match is full!" }, srv := srv, conn := conn }
    else
      match getSocketPlayer srv conn with
      | none =>
        { reply := { errorMessage := some "Player not found!" }, srv := srv, conn := conn }
      | some guestPlayer0 =>
        let rule := srv.rules "RuleBgCasual"
        let guestPlayer :=
          { guestPlayer0 with
            currentMatch := some m.id, currentPieceType := some PieceType.black }
        let srv1 := updatePlayer srv guestPlayer
        let m1 := Match.addGuestPlayer m guestPlayer
        let hostName :=
          match m1.hostName with
          | some hn =>
            if hn ≠ "" then hn
            else match m1.host with
                 | some h => if h.name ≠ "" then h.name else "Host"
                 | none => "Host"
          | none =>
            match m1.host with
            | some h => if h.name ≠ "" then h.name else "Host"
            | none => "Host"
        let guestName := if guestPlayer.name ≠ "" then guestPlayer.name else "Guest"
        let m2 :=
          { m1 with
            hostName := some hostName, guestName := some guestName,
            slug := some (iccjMatchSlug hostName guestName),
            name := some (hostName ++ " vs " ++ guestName) }
        match m2.currentGame with
        | none =>
          { reply := {}, srv := updateMatch srv1 m2, conn := conn, threw := true }
        | some g =>
          let g2 := { g with hasStarted := true, turnPlayer := m2.host, turnNumber := 1 }
          let m3 := { m2 with currentGame := some g2 }
          let srv2 := updateMatch srv1 m3
          { reply := { result := true, ruleName := some "RuleBgCasual", host := m3.host,
                       guest := some guestPlayer, slug := m3.slug, matchName := m3.name },
            srv := srv2,
            conn := { conn with matchId := some m3.id, rule := some rule },
            sendAfter := sendMatchMessage srv2 m3 { event := "EVENT_MATCH_START" } }

/-- Embedding of `Server.handleRollDice` (`src/app/server/server.js:534-574`):
game-existence, started, turn-ownership and single-roll checks, then the
dice are produced, the roll-time deep snapshot is captured and
`EVENT_DICE_ROLL` goes to everybody but the roller. -/
def handleRollDiceCore (srv : SrvState S) (conn : Conn S) : Core S :=
  match getSocketMatch srv conn with
  | none => { reply := {}, srv := srv, threw := true }
  | some m =>
    match m.currentGame with
    | none =>
      { reply :=
          { errorMessage :=
              some ("Match with ID " ++ toString m.id ++ " has no current game!") },
        srv := srv }
    | some g =>
      if !g.hasStarted then
        { reply :=
            { errorMessage :=
                some ("Game with ID " ++ toString g.id ++ " is not yet started!") },
          srv := srv }
      else
        match getSocketPlayer srv conn with
        | none => { reply := {}, srv := srv, threw := true }
        | some player =>
          -- JS text has an apostrophe in "isn't"; elided here
          if (match g.turnPlayer with
              | none => true
              | some tp => tp.id != player.id) then
            { reply :=
                { errorMessage :=
                    some ("Cannot roll dice it isnt player " ++ toString player.id ++
                      " turn!") },
              srv := srv }
          else if Game.diceWasRolled g then
            { reply := { errorMessage := some "Dice was already rolled!" }, srv := srv }
          else
            match getSocketRule conn with
            | none => { reply := {}, srv := srv, threw := true }
            | some rule =>
              let dice := rule.rollDice g
              let g2 := Game.snapshotState { g with turnDice := some dice }
              let m2 := { m with currentGame := some g2 }
              let srv2 := updateMatch srv m2
              { reply := { result := true, player := g.turnPlayer, dice := some dice },
                srv := srv2,
                sends := sendOthersMessage srv2 m2 player.id { event := "EVENT_DICE_ROLL" } }

def handleRollDice (srv : SrvState S) (conn : Conn S) : HResult S :=
  (handleRollDiceCore srv conn).toResult conn

/-- Embedding of `Server.handleMovePiece` (`src/app/server/server.js:576-638`):
piece/game/sequence checks, rule validation, action generation, then the
atomic application; on success the move sequence advances by one and
`EVENT_PIECE_MOVE` goes to all participants.  An apply-time failure (the
`catch` branch, production mode) leaves every registry unchanged and replies
with an empty action list. -/
def handleMovePieceCore (srv : SrvState S) (conn : Conn S) (params : MovePieceParams) :
    Core S :=
  match params.piece with
  | none => { reply := { errorMessage := some "No piece selected!" }, srv := srv }
  | some pc =>
    match getSocketMatch srv conn with
    | none => { reply := {}, srv := srv, threw := true }
    | some m =>
      match m.currentGame with
      | none =>
        { reply := { errorMessage := some "Match created, but current game is null!" },
          srv := srv }
      | some g =>
        if params.moveSequence < g.moveSequence then
          { reply := { errorMessage := some "This move has already been played!" },
            srv := srv }
        else
          match getSocketRule conn, getSocketPlayer srv conn with
          | some rule, some player =>
            if !rule.validateMove g player pc params.steps then
              { reply := { errorMessage := some "Requested move is not valid!" },
                srv := srv }
            else
              let actionList := rule.getMoveActions g.state pc params.steps
              if actionList.length == 0 then
                { reply := { errorMessage := some "Requested move is not allowed!" },
                  srv := srv }
              else
                match rule.applyMoveActions g.state actionList with
                | some st2 =>
                  let g2 :=
                    { g with
                      state := st2,
                      turnDice := g.turnDice.map
                        (fun d => rule.markAsPlayed d params.steps),
                      moveSequence := g.moveSequence + 1 }
                  let m2 := { m with currentGame := some g2 }
                  let srv2 := updateMatch srv m2
                  { reply := { result := true, piece := some pc, ptype := params.ptype,
                               steps := some params.steps,
                               moveActionList := some actionList },
                    srv := srv2,
                    sends := sendMatchMessage srv2 m2 { event := "EVENT_PIECE_MOVE" } }
                | none =>
                  { reply := { piece := some pc, ptype := params.ptype,
                               steps := some params.steps, moveActionList := some [] },
                    srv := srv }
          | _, _ => { reply := {}, srv := srv, threw := true }

def handleMovePiece (srv : SrvState S) (conn : Conn S) (params : MovePieceParams) :
    HResult S :=
  (handleMovePieceCore srv conn params).toResult conn

/-- Embedding of `Server.handleUndoMoves` (`src/app/server/server.js:662-679`):
if the rule allows undo, the roll-time snapshot is restored and
`EVENT_UNDO_MOVES` goes to all participants. -/
def handleUndoMovesCore (srv : SrvState S) (conn : Conn S) : Core S :=
  match getSocketMatch srv conn with
  | none => { reply := {}, srv := srv, threw := true }
  | some m =>
    match getSocketPlayer srv conn with
    | none => { reply := {}, srv := srv, threw := true }
    | some player =>
      match getSocketRule conn with
      | none => { reply := {}, srv := srv, threw := true }
      | some rule =>
        match m.currentGame with
        | none => { reply := {}, srv := srv, threw := true }
        | some g =>
          if !rule.validateUndo g player then
            { reply := { errorMessage := some "Undo moves is not allowed!" },
              srv := srv }
          else
            let g2 := Game.restoreState g
            let m2 := { m with currentGame := some g2 }
            let srv2 := updateMatch srv m2
            { reply := { result := true }, srv := srv2,
              sends := sendMatchMessage srv2 m2 { event := "EVENT_UNDO_MOVES" } }

def handleUndoMoves (srv : SrvState S) (conn : Conn S) : HResult S :=
  (handleUndoMovesCore srv conn).toResult conn

/-- Embedding of `Server.handleResignMatch` (`src/app/server/server.js:692-709`):
no registry mutation at all, only a deferred `EVENT_MATCH_OVER` broadcast
naming the opponent as winner with the resignation flag set. -/
def handleResignMatchCore (srv : SrvState S) (conn : Conn S) : Core S :=
  match getSocketMatch srv conn, getSocketPlayer srv conn with
  | some m, some player =>
    let otherPlayer := if Match.isHost m player then m.guest else m.host
    { reply := { result := true }, srv := srv,
      sendAfter := sendMatchMessage srv m
        { event := "EVENT_MATCH_OVER", winner := otherPlayer, resigned := some true } }
  | _, _ => { reply := {}, srv := srv, threw := true }

def handleResignMatch (srv : SrvState S) (conn : Conn S) : HResult S :=
  (handleResignMatchCore srv conn).toResult conn

/-- Embedding of `Server.endGame` (`src/app/server/server.js:711-754`): the
winner's color total grows by the rule's game score; the match flips to over
when that total reaches `match.length`; while not over a fresh started game
with `turnPlayer` the winner and `turnNumber` 1 replaces the current game.
JavaScript indexes `match.score` with `winner.currentPieceType`; an unseated
winner (a `null` color key) would corrupt the score with `NaN`, which a Nat
map cannot express, so that branch is rendered as `threw`. -/
def endGameCore (srv : SrvState S) (conn : Conn S) (winner : Player) (resigned : Bool) :
    Core S :=
  match getSocketMatch srv conn, getSocketRule conn with
  | some m, some rule =>
    match m.currentGame, winner.currentPieceType with
    | some g, some wpt =>
      let sc := rule.getGameScore g.state winner
      let score2 := m.score.add wpt sc
      let over2 := if m.length ≤ score2.get wpt then true else m.isOver
      if over2 then
        let m2 := { m with score := score2, isOver := over2 }
        let srv2 := updateMatch srv m2
        { reply := { result := true }, srv := srv2,
          sendAfter := sendMatchMessage srv2 m2
            { event := "EVENT_MATCH_OVER", winner := some winner,
              resigned := some resigned } }
      else
        let gid := srv.seq
        let game2 :=
          { Game.createNew gid rule with
            hasStarted := true, turnPlayer := some winner, turnNumber := 1 }
        let m2 := { m with score := score2, isOver := over2, currentGame := some game2 }
        let srv2 := { updateMatch srv m2 with seq := srv.seq + 1 }
        { reply := { result := true }, srv := srv2,
          sendAfter :=
            sendMatchMessage srv2 m2
              { event := "EVENT_GAME_OVER", winner := some winner,
                resigned := some resigned } ++
            sendMatchMessage srv2 m2
              { event := "EVENT_GAME_RESTART", resigned := some resigned } }
    | _, _ => { reply := {}, srv := srv, threw := true }
  | _, _ => { reply := {}, srv := srv, threw := true }

def endGame (srv : SrvState S) (conn : Conn S) (winner : Player) (resigned : Bool) :
    HResult S :=
  (endGameCore srv conn winner resigned).toResult conn

/-- A concrete rule instance for concrete runs: the board state is a bare
counter, every move is allowed, and applying a move bumps the counter.  The
handlers treat the rule engine as a black box, so any inhabitant of `Rule`
exercises them. -/
def demoRule : Rule Nat where
  name := "RuleBgCasual"
  initialState := 0
  rollDice := fun _ => [3, 5]
  validateMove := fun _ _ _ _ => true
  getMoveActions := fun _ _ _ => [1]
  applyMoveActions := fun s _ => some (s + 1)
  markAsPlayed := fun d _ => d.drop 1
  validateConfirm := fun _ _ => true
  validateUndo := fun _ _ => true
  hasWon := fun _ _ => false
  getGameScore := fun _ _ => 1

def alicePlayer : Player :=
  { id := 1, name := "Alice", socketID := 11, currentMatch := some 100,
    currentPieceType := some PieceType.white }

def bobPlayer : Player :=
  { id := 2, name := "Bob", socketID := 12, currentMatch := some 100,
    currentPieceType := some PieceType.black }

/-- A game mid-turn: dice rolled (snapshot taken at state 7), two moves
already accepted since. -/
def demoGame : Game Nat :=
  { id := 200, state := 9, stateSnapshot := some 7, hasStarted := true,
    turnPlayer := some alicePlayer, turnNumber := 4, turnDice := some [5],
    moveSequence := 2 }

def demoMatch : Match Nat :=
  { id := 100, host := some alicePlayer, guest := some bobPlayer, players := [1, 2],
    ruleName := "RuleBgCasual", score := { white := 0, black := 0 }, length := 3,
    currentGame := some demoGame, isOver := false, hostName := some "Alice",
    guestName := some "Bob", hostSlug := some "alice", slug := some "alice-vs-bob",
    name := some "Alice vs Bob" }

def demoSrv : SrvState Nat :=
  { players := [alicePlayer, bobPlayer], matchList := [demoMatch],
    clients := [11, 12], rules := fun _ => demoRule, seq := 300 }

def aliceConn : Conn Nat :=
  { socketId := 11, player := some 1, matchId := some 100, rule := some demoRule,
    cookiePlayerId := none }

def staleParams : MovePieceParams :=
  { piece := some ⟨1⟩, ptype := some 0, steps := 5, moveSequence := 1 }

def futureParams : MovePieceParams :=
  { piece := some ⟨1⟩, ptype := some 0, steps := 5, moveSequence := 9 }

/-- A not-yet-started game of an open (guestless) match. -/
def openGame : Game Nat :=
  { id := 201, state := 0, stateSnapshot := none, hasStarted := false,
    turnPlayer := none, turnNumber := 0, turnDice := none, moveSequence := 0 }

/-- An open match hosted by Alice, awaiting a guest. -/
def openMatch : Match Nat :=
  { id := 101, host := some alicePlayer, guest := none, players := [1],
    ruleName := "RuleBgCasual", score := { white := 0, black := 0 }, length := 3,
    currentGame := some openGame, isOver := false, hostName := some "Alice",
    guestName := none, hostSlug := some "alice", slug := some "alice",
    name := some "Alice" }

def openSrv : SrvState Nat :=
  { players := [alicePlayer, bobPlayer], matchList := [openMatch],
    clients := [11, 12], rules := fun _ => demoRule, seq := 300 }

/-- Bob's connection, not yet bound to a match. -/
def bobConn : Conn Nat :=
  { socketId := 12, player := some 2, matchId := none, rule := none,
    cookiePlayerId := none }

/-- The host player before renaming, and a server with no matches yet. -/
def hostStartPlayer : Player :=
  { id := 5, name := "someone", socketID := 15, currentMatch := none,
    currentPieceType := none }

def slugSrv : SrvState Nat :=
  { players := [hostStartPlayer, bobPlayer], matchList := [], clients := [15, 12],
    rules := fun _ => demoRule, seq := 700 }

def hostConn : Conn Nat :=
  { socketId := 15, player := some 5, matchId := none, rule := none,
    cookiePlayerId := none }

/-- A fresh-turn fixture for roll/undo runs: dice not yet rolled. -/
def rollGame : Game Nat :=
  { id := 210, state := 7, stateSnapshot := none, hasStarted := true,
    turnPlayer := some alicePlayer, turnNumber := 1, turnDice := none,
    moveSequence := 0 }

def rollMatch : Match Nat :=
  { demoMatch with id := 110, currentGame := some rollGame }

def rollSrv : SrvState Nat :=
  { demoSrv with matchList := [rollMatch] }

def aliceRollConn : Conn Nat :=
  { aliceConn with matchId := some 110 }

/-- A returning, unbound connection for Alice. -/
def freshConn : Conn Nat :=
  { socketId := 19, player := none, matchId := none, rule := none,
    cookiePlayerId := none }

/-- One dispatched MOVE_PIECE request, as the dispatcher leaves the server:
the handler's resulting registries and socket bindings. -/
def stepMove (st : SrvState S × Conn S) (p : MovePieceParams) : SrvState S × Conn S :=
  ((handleMovePiece st.1 st.2 p).srv, (handleMovePiece st.1 st.2 p).conn)

/-- Any number of MOVE_PIECE requests dispatched in order. -/
def applyMoves (st : SrvState S × Conn S) (ps : List MovePieceParams) :
    SrvState S × Conn S :=
  ps.foldl stepMove st

/-- The undo-relevant invariant after a dice roll: the connection still
points at match `mid`, and that match's current game retains `s0` as its
roll-time snapshot. -/
def SnapInv (mid : MatchId) (s0 : S) (st : SrvState S × Conn S) : Prop :=
  st.2.matchId = some mid ∧
  ∃ m g, getMatchByID st.1 mid = some m ∧ m.currentGame = some g ∧
    g.stateSnapshot = some s0

/-- Two arbitrary in-turn moves for the witness run. -/
def wMove1 : MovePieceParams :=
  { piece := some ⟨1⟩, ptype := some 0, steps := 3, moveSequence := 0 }

def wMove2 : MovePieceParams :=
  { piece := some ⟨1⟩, ptype := some 0, steps := 5, moveSequence := 1 }

/-! ## Supporting lemmas -/

theorem getMatchByID_id {srv : SrvState S} {mid : MatchId} {m : Match S}
    (h : getMatchByID srv mid = some m) : m.id = mid := by
  unfold getMatchByID at h
  simpa using List.find?_some h

theorem getPlayerByID_id {srv : SrvState S} {pid : PlayerId} {p : Player}
    (h : getPlayerByID srv pid = some p) : p.id = pid := by
  unfold getPlayerByID at h
  simpa using List.find?_some h

/-- Replacing (by key) the object a successful `find?` saw leaves the lookup
finding the replacement. -/
theorem find?_map_replace {α : Type} (key : α → Nat) {l : List α} {k : Nat} {a b : α}
    (hf : l.find? (fun x => key x == k) = some a) (hid : key b = k) :
    (l.map (fun x => if key x == key b then b else x)).find?
      (fun x => key x == k) = some b := by
  induction l with
  | nil => simp at hf
  | cons x xs ih =>
    rw [List.map_cons]
    by_cases hx : key x = key b
    · have hhead : (if (key x == key b) = true then b else x) = b := by simp [hx]
      rw [hhead, List.find?_cons_of_pos]
      simp [hid]
    · have hhead : (if (key x == key b) = true then b else x) = x := by simp [hx]
      have hxk : (key x == k) = false := by
        rw [← hid]
        simp [hx]
      rw [hhead, List.find?_cons_of_neg _ (by simp [hxk])]
      rw [List.find?_cons_of_neg _ (by simp [hxk])] at hf
      exact ih hf

theorem getMatchByID_updateMatch {srv : SrvState S} {mid : MatchId} {m m' : Match S}
    (hm : getMatchByID srv mid = some m) (hid : m'.id = mid) :
    getMatchByID (updateMatch srv m') mid = some m' := by
  unfold getMatchByID at hm
  unfold getMatchByID updateMatch
  exact find?_map_replace (fun x : Match S => x.id) hm hid

/-- Variant keyed on the replaced match's own id. -/
theorem getMatchByID_update_same {srv : SrvState S} {mid : MatchId} {m m' : Match S}
    (hm : getMatchByID srv mid = some m) (hid : m'.id = m.id) :
    getMatchByID (updateMatch srv m') mid = some m' :=
  getMatchByID_updateMatch hm (hid.trans (getMatchByID_id hm))

theorem getPlayerByID_updatePlayer {srv : SrvState S} {pid : PlayerId} {p p' : Player}
    (hp : getPlayerByID srv pid = some p) (hid : p'.id = pid) :
    getPlayerByID (updatePlayer srv p') pid = some p' := by
  unfold getPlayerByID at hp
  unfold getPlayerByID updatePlayer
  exact find?_map_replace (fun x : Player => x.id) hp hid

theorem sendListMessage_body {srv : SrvState S} {b : MsgBody} :
    ∀ {l : List PlayerId} {om : OutMsg}, om ∈ sendListMessage srv b l → om.body = b := by
  intro l
  induction l with
  | nil =>
    intro om h
    simp [sendListMessage] at h
  | cons pid rest ih =>
    intro om h
    rw [sendListMessage] at h
    cases hq : getPlayerByID srv pid with
    | none =>
      simp only [hq, List.nil_append] at h
      exact ih h
    | some p =>
      simp only [hq] at h
      rcases List.mem_append.mp h with h1 | h2
      · unfold sendPlayerMessage at h1
        by_cases hc : srv.clients.contains p.socketID = true
        · rw [if_pos hc, List.mem_singleton] at h1
          rw [h1]
        · rw [if_neg hc] at h1
          simp at h1
      · exact ih h2

theorem sendOthersList_body {srv : SrvState S} {b : MsgBody} {ex : PlayerId} :
    ∀ {l : List PlayerId} {om : OutMsg}, om ∈ sendOthersList srv ex b l → om.body = b := by
  intro l
  induction l with
  | nil =>
    intro om h
    simp [sendOthersList] at h
  | cons pid rest ih =>
    intro om h
    rw [sendOthersList] at h
    by_cases he : (pid == ex) = true
    · rw [if_pos he, List.nil_append] at h
      exact ih h
    · rw [if_neg he] at h
      cases hq : getPlayerByID srv pid with
      | none =>
        simp only [hq, List.nil_append] at h
        exact ih h
      | some p =>
        simp only [hq] at h
        rcases List.mem_append.mp h with h1 | h2
        · unfold sendPlayerMessage at h1
          by_cases hc : srv.clients.contains p.socketID = true
          · rw [if_pos hc, List.mem_singleton] at h1
            rw [h1]
          · rw [if_neg hc] at h1
            simp at h1
        · exact ih h2

/-! ## Concrete fixture used by witnesses and counterexamples -/

/-! ## C1: stale moveSequence is rejected without mutation -/

/-- C1: a MOVE_PIECE request whose `moveSequence` parameter is strictly below
the current game's counter is rejected with the stale-move error reply, and
nothing changes at all: the registries (board state, dice, moveSequence,
match and player records), the socket bindings, and the broadcast queues are
exactly as before. -/
theorem movePiece_stale_rejected {srv : SrvState S} {conn : Conn S}
    {params : MovePieceParams} {pc : Piece} {m : Match S} {g : Game S}
    (hpc : params.piece = some pc)
    (hm : getSocketMatch srv conn = some m)
    (hg : m.currentGame = some g)
    (hseq : params.moveSequence < g.moveSequence) :
    handleMovePiece srv conn params =
      { reply := { errorMessage := some "This move has already been played!" },
        srv := srv, conn := conn } := by
  simp only [handleMovePiece, handleMovePieceCore, Core.toResult, hpc, hm, hg]
  rw [if_pos hseq]

/-- Witness for C1: on the demo server (current counter 2) a request
carrying moveSequence 1 is rejected and the server value is unchanged. -/
theorem movePiece_stale_rejected_witness :
    (staleParams.piece = some ⟨1⟩ ∧
      getSocketMatch demoSrv aliceConn = some demoMatch ∧
      demoMatch.currentGame = some demoGame ∧
      staleParams.moveSequence < demoGame.moveSequence) ∧
    handleMovePiece demoSrv aliceConn staleParams =
      { reply := { errorMessage := some "This move has already been played!" },
        srv := demoSrv, conn := aliceConn } :=
  ⟨⟨rfl, by decide, rfl, by decide⟩,
   @movePiece_stale_rejected Nat demoSrv aliceConn staleParams ⟨1⟩ demoMatch demoGame
     rfl (by decide) rfl (by decide)⟩

/-! ## C4: a future moveSequence is NOT rejected (claim corrected) -/

/-- Counterexample to C4 as stated: on the demo server the game's counter is
2 and the request carries the strictly-future value 9; the request is not
rejected — it is accepted with no error text and the match registry is
mutated. -/
theorem movePiece_future_accepted_cex :
    demoGame.moveSequence < futureParams.moveSequence ∧
    (handleMovePiece demoSrv aliceConn futureParams).reply.result = true ∧
    (handleMovePiece demoSrv aliceConn futureParams).reply.errorMessage = none ∧
    (handleMovePiece demoSrv aliceConn futureParams).srv.matchList ≠
      demoSrv.matchList := by
  decide

/-- C4 amended: the handler's sequence guard only rejects values strictly
below the counter; a request carrying any future (or current) value passes
the guard unchanged — the handler behaves exactly as if the request had
carried the current counter value, so rejection can only come from the move
validation itself. -/
theorem movePiece_future_ignored {srv : SrvState S} {conn : Conn S}
    {params : MovePieceParams} {m : Match S} {g : Game S}
    (hm : getSocketMatch srv conn = some m)
    (hg : m.currentGame = some g)
    (hseq : g.moveSequence ≤ params.moveSequence) :
    handleMovePiece srv conn params =
      handleMovePiece srv conn { params with moveSequence := g.moveSequence } := by
  obtain ⟨pp, pt, st, ms⟩ := params
  cases pp with
  | none => rfl
  | some pc =>
    simp only [handleMovePiece, handleMovePieceCore, hm, hg]
    rw [if_neg (Nat.not_lt.mpr hseq), if_neg (Nat.lt_irrefl _)]

/-- Witness for the amended C4 at a concrete input. -/
theorem movePiece_future_ignored_witness :
    (getSocketMatch demoSrv aliceConn = some demoMatch ∧
      demoMatch.currentGame = some demoGame ∧
      demoGame.moveSequence ≤ futureParams.moveSequence) ∧
    handleMovePiece demoSrv aliceConn futureParams =
      handleMovePiece demoSrv aliceConn
        { futureParams with moveSequence := demoGame.moveSequence } :=
  ⟨⟨by decide, rfl, by decide⟩,
   @movePiece_future_ignored Nat demoSrv aliceConn futureParams demoMatch demoGame
     (by decide) rfl (by decide)⟩

/-! ## C10: RESIGN_MATCH mutates nothing -/

/-- C10: a RESIGN_MATCH request on a bound connection changes no registry at
all — in particular the match's score mapping and isOver flag are exactly as
before — sends nothing immediately, and only schedules an EVENT_MATCH_OVER
broadcast naming the opponent as winner with the resignation flag set. -/
theorem resignMatch_frame {srv : SrvState S} {conn : Conn S}
    {m : Match S} {player : Player} {r : HResult S}
    (hm : getSocketMatch srv conn = some m)
    (hp : getSocketPlayer srv conn = some player)
    (hr : handleResignMatch srv conn = r) :
    r.srv = srv ∧ r.conn = conn ∧ r.sends = [] ∧ r.reply.result = true ∧
    r.threw = false ∧
    ∀ om ∈ r.sendAfter,
      om.body = { event := "EVENT_MATCH_OVER",
                  winner := if Match.isHost m player then m.guest else m.host,
                  resigned := some true } := by
  subst hr
  unfold handleResignMatch handleResignMatchCore Core.toResult
  rw [hm, hp]
  refine ⟨rfl, rfl, rfl, rfl, rfl, ?_⟩
  intro om hmem
  exact sendListMessage_body hmem

/-- Witness for C10 at the demo fixture. -/
theorem resignMatch_frame_witness :
    (getSocketMatch demoSrv aliceConn = some demoMatch ∧
      getSocketPlayer demoSrv aliceConn = some alicePlayer) ∧
    ((handleResignMatch demoSrv aliceConn).srv = demoSrv ∧
      (handleResignMatch demoSrv aliceConn).conn = aliceConn ∧
      (handleResignMatch demoSrv aliceConn).sends = [] ∧
      (handleResignMatch demoSrv aliceConn).reply.result = true ∧
      (handleResignMatch demoSrv aliceConn).threw = false ∧
      ∀ om ∈ (handleResignMatch demoSrv aliceConn).sendAfter,
        om.body = { event := "EVENT_MATCH_OVER",
                    winner := if Match.isHost demoMatch alicePlayer then demoMatch.guest
                              else demoMatch.host,
                    resigned := some true }) :=
  ⟨⟨by decide, by decide⟩,
   @resignMatch_frame Nat demoSrv aliceConn demoMatch alicePlayer
     (handleResignMatch demoSrv aliceConn) (by decide) (by decide) rfl⟩

/-! ## C9: the bound rule variant is always RuleBgCasual -/

theorem updateMatch_length (srv : SrvState S) (m : Match S) :
    (updateMatch srv m).matchList.length = srv.matchList.length := by
  unfold updateMatch
  exact List.length_map _ _

/-- C9: every successful CREATE_MATCH reply reports ruleName RuleBgCasual,
binds the socket to the rule loaded under that fixed name, and every match
the handler adds to the registry carries ruleName RuleBgCasual; every
successful JOIN_MATCH likewise reports and binds RuleBgCasual and adds no
match — all regardless of any ruleName carried in the request parameters. -/
theorem match_rule_forced_casual :
    (∀ (srv : SrvState S) (conn : Conn S) (params : CreateMatchParams) (r : HResult S),
       handleCreateMatch srv conn params = r → r.reply.result = true →
       r.reply.ruleName = some "RuleBgCasual" ∧
       r.conn.rule = some (srv.rules "RuleBgCasual") ∧
       ∀ m ∈ r.srv.matchList, m ∈ srv.matchList ∨ m.ruleName = "RuleBgCasual") ∧
    (∀ (srv : SrvState S) (conn : Conn S) (params : JoinMatchParams) (r : HResult S),
       handleJoinMatch srv conn params = r → r.reply.result = true →
       r.reply.ruleName = some "RuleBgCasual" ∧
       r.conn.rule = some (srv.rules "RuleBgCasual") ∧
       r.srv.matchList.length = srv.matchList.length) := by
  constructor
  · intro srv conn params r hr hres
    subst hr
    revert hres
    unfold handleCreateMatch
    dsimp only
    repeat' split
    all_goals intro h
    any_goals simp at h
    all_goals refine ⟨rfl, rfl, ?_⟩
    all_goals intro m hm
    all_goals
      first
        | exact Or.inl hm
        | (rcases List.mem_append.mp hm with h1 | h2
           · exact Or.inl h1
           · right
             rw [List.mem_singleton] at h2
             rw [h2]
             rfl)
  · intro srv conn params r hr hres
    subst hr
    revert hres
    unfold handleJoinMatch
    dsimp only
    repeat' split
    all_goals intro h
    any_goals simp at h
    all_goals exact ⟨rfl, rfl, updateMatch_length _ _⟩

/-- Witness for C9: a concrete CREATE_MATCH (demo server, name "Zed") and a
concrete JOIN_MATCH (open match by id), both of which succeed. -/
theorem match_rule_forced_casual_witness :
    ((handleCreateMatch demoSrv aliceConn { playerName := some "Zed" }).reply.result =
        true ∧
      (handleCreateMatch demoSrv aliceConn
          { playerName := some "Zed" }).reply.ruleName = some "RuleBgCasual" ∧
      (handleCreateMatch demoSrv aliceConn { playerName := some "Zed" }).conn.rule =
        some (demoSrv.rules "RuleBgCasual") ∧
      ∀ m ∈ (handleCreateMatch demoSrv aliceConn
               { playerName := some "Zed" }).srv.matchList,
        m ∈ demoSrv.matchList ∨ m.ruleName = "RuleBgCasual") ∧
    ((handleJoinMatch openSrv bobConn { matchID := some 101 }).reply.result = true ∧
      (handleJoinMatch openSrv bobConn { matchID := some 101 }).reply.ruleName =
        some "RuleBgCasual" ∧
      (handleJoinMatch openSrv bobConn { matchID := some 101 }).conn.rule =
        some (openSrv.rules "RuleBgCasual") ∧
      (handleJoinMatch openSrv bobConn
          { matchID := some 101 }).srv.matchList.length = openSrv.matchList.length) :=
  ⟨⟨by decide,
    match_rule_forced_casual.1 demoSrv aliceConn { playerName := some "Zed" } _ rfl
      (by decide)⟩,
   ⟨by decide,
    match_rule_forced_casual.2 openSrv bobConn { matchID := some 101 } _ rfl
      (by decide)⟩⟩

/-! ## C3: end-of-game scoring and match completion -/

theorem ScoreMap.get_add_same (s : ScoreMap) (pt : PieceType) (v : Nat) :
    (s.add pt v).get pt = s.get pt + v := by
  cases pt <;> rfl

theorem ScoreMap.get_add_other (s : ScoreMap) {pt pt' : PieceType} (v : Nat)
    (h : pt' ≠ pt) : (s.add pt v).get pt' = s.get pt' := by
  cases pt <;> cases pt' <;> first | rfl | exact absurd rfl h

/-- C3: when a game ends, the winner's color total grows by exactly the rule
engine's game score, the other color's total is untouched, the match's
isOver flag becomes true exactly when the new total reaches or exceeds the
match length, and: while not over a fresh started game (turnPlayer the
winner, turnNumber 1, moveSequence 0, fresh id) replaces the current game;
once over, no new game is created (the current game is left in place). -/
theorem endGame_scoring {srv : SrvState S} {conn : Conn S} {winner : Player}
    {resigned : Bool} {m : Match S} {rule : Rule S} {g : Game S} {wpt : PieceType}
    {r : HResult S}
    (hm : getSocketMatch srv conn = some m)
    (hrule : getSocketRule conn = some rule)
    (hg : m.currentGame = some g)
    (hwpt : winner.currentPieceType = some wpt)
    (hover : m.isOver = false)
    (hr : endGame srv conn winner resigned = r) :
    ∃ m', getSocketMatch r.srv conn = some m' ∧
      m'.score.get wpt = m.score.get wpt + rule.getGameScore g.state winner ∧
      (∀ pt, pt ≠ wpt → m'.score.get pt = m.score.get pt) ∧
      (m'.isOver = true ↔ m.length ≤ m'.score.get wpt) ∧
      (m'.isOver = false →
        ∃ g', m'.currentGame = some g' ∧ g'.hasStarted = true ∧
          g'.turnPlayer = some winner ∧ g'.turnNumber = 1 ∧
          g'.moveSequence = 0 ∧ g'.id = srv.seq) ∧
      (m'.isOver = true → m'.currentGame = some g) := by
  obtain ⟨mid, hmid, hmm⟩ : ∃ mid, conn.matchId = some mid ∧ getMatchByID srv mid = some m := by
    unfold getSocketMatch at hm
    cases hcm : conn.matchId with
    | none =>
      rw [hcm] at hm
      simp at hm
    | some mid =>
      rw [hcm] at hm
      exact ⟨mid, rfl, hm⟩
  have hmidm : m.id = mid := getMatchByID_id hmm
  subst hr
  unfold endGame endGameCore Core.toResult
  simp only [hm, hrule, hg, hwpt]
  by_cases hcase :
      m.length ≤ (m.score.add wpt (rule.getGameScore g.state winner)).get wpt
  · rw [if_pos hcase, if_pos rfl]
    refine ⟨{ m with
              score := m.score.add wpt (rule.getGameScore g.state winner),
              isOver := true, currentGame := some g }, ?_, ?_, ?_, ?_, ?_, ?_⟩
    · unfold getSocketMatch
      rw [hmid]
      exact getMatchByID_updateMatch hmm hmidm
    · exact ScoreMap.get_add_same _ _ _
    · intro pt hpt
      exact ScoreMap.get_add_other _ _ hpt
    · exact iff_of_true rfl hcase
    · intro hcontra
      simp at hcontra
    · intro _
      rfl
  · rw [if_neg hcase, hover, if_neg (by decide : ¬((false : Bool) = true))]
    refine ⟨{ m with
              score := m.score.add wpt (rule.getGameScore g.state winner),
              isOver := false,
              currentGame := some { Game.createNew srv.seq rule with
                                    hasStarted := true, turnPlayer := some winner,
                                    turnNumber := 1 } }, ?_, ?_, ?_, ?_, ?_, ?_⟩
    · unfold getSocketMatch
      rw [hmid]
      exact getMatchByID_updateMatch hmm hmidm
    · exact ScoreMap.get_add_same _ _ _
    · intro pt hpt
      exact ScoreMap.get_add_other _ _ hpt
    · exact iff_of_false (by simp) hcase
    · intro _
      exact ⟨_, rfl, rfl, rfl, rfl, rfl, rfl⟩
    · intro hcontra
      simp at hcontra

/-- Witness for C3: ending the demo game (winner Alice, game score 1, total
1 below length 3) creates a fresh started game for Alice. -/
theorem endGame_scoring_witness :
    (getSocketMatch demoSrv aliceConn = some demoMatch ∧
      getSocketRule aliceConn = some demoRule ∧
      demoMatch.currentGame = some demoGame ∧
      alicePlayer.currentPieceType = some PieceType.white ∧
      demoMatch.isOver = false) ∧
    (∃ m', getSocketMatch (endGame demoSrv aliceConn alicePlayer false).srv aliceConn =
        some m' ∧
      m'.score.get PieceType.white =
        demoMatch.score.get PieceType.white +
          demoRule.getGameScore demoGame.state alicePlayer ∧
      (∀ pt, pt ≠ PieceType.white → m'.score.get pt = demoMatch.score.get pt) ∧
      (m'.isOver = true ↔ demoMatch.length ≤ m'.score.get PieceType.white) ∧
      (m'.isOver = false →
        ∃ g', m'.currentGame = some g' ∧ g'.hasStarted = true ∧
          g'.turnPlayer = some alicePlayer ∧ g'.turnNumber = 1 ∧
          g'.moveSequence = 0 ∧ g'.id = demoSrv.seq) ∧
      (m'.isOver = true → m'.currentGame = some demoGame)) :=
  ⟨⟨by decide, rfl, rfl, rfl, rfl⟩,
   @endGame_scoring Nat demoSrv aliceConn alicePlayer false demoMatch demoRule demoGame
     PieceType.white (endGame demoSrv aliceConn alicePlayer false)
     (by decide) rfl rfl rfl rfl rfl⟩

/-! ## Further concrete fixtures -/

/-! ## C5: joining a full match (claim corrected) -/

/-- Counterexample to C5 as stated: on the demo server the only match with
hostSlug alice is full, and a JOIN_MATCH addressed to it by slug fails with
"Match not found!" — not with a "match full" style error, because a full
match is never resolvable as open. -/
theorem joinMatch_full_by_slug_cex :
    demoMatch.guest.isSome = true ∧ demoMatch.hostSlug = some "alice" ∧
    (handleJoinMatch demoSrv bobConn { hostSlug := some "alice" }).reply.result =
      false ∧
    (handleJoinMatch demoSrv bobConn { hostSlug := some "alice" }).reply.errorMessage =
      some "Match not found!" ∧
    (handleJoinMatch demoSrv bobConn { hostSlug := some "alice" }).reply.errorMessage ≠
      some "Match is full!" := by
  decide

/-- C5 amended: (a) a JOIN_MATCH addressed by match id to a match whose
guest seat is filled fails with the "Match is full!" error and alters
nothing; (b) a match with a guest is never resolvable as an open match by
slug; (c) hence a JOIN_MATCH addressed by slug, when no open match exists
for that slug, fails with "Match not found!" and alters nothing. -/
theorem joinMatch_full_rejected {srv : SrvState S} {conn : Conn S} :
    (∀ (params : JoinMatchParams) (mid : MatchId) (m : Match S),
       strTruthy params.hostSlug = false → params.matchID = some mid → mid ≠ 0 →
       getMatchByID srv mid = some m → m.guest.isSome = true →
       handleJoinMatch srv conn params =
         { reply := { errorMessage := some "Match is full!" }, srv := srv,
           conn := conn }) ∧
    (∀ (slug : String) (m : Match S),
       getOpenMatchByHostSlug srv slug = some m → m.guest = none) ∧
    (∀ (params : JoinMatchParams) (hs : String),
       params.hostSlug = some hs → hs ≠ "" →
       getOpenMatchByHostSlug srv (iccjSlugify hs) = none →
       handleJoinMatch srv conn params =
         { reply := { errorMessage := some "Match not found!" }, srv := srv,
           conn := conn }) := by
  refine ⟨?_, ?_, ?_⟩
  · intro params mid m hslug hmid hmid0 hm hguest
    have hB : numTruthy params.matchID = true := by
      rw [hmid]
      simp [numTruthy, hmid0]
    have hmg : getMatchByID srv (params.matchID.getD 0) = some m := by
      rw [hmid]
      exact hm
    unfold handleJoinMatch
    simp only [hslug, Bool.false_eq_true, if_false, hB, if_true, hmg, hguest, if_pos]
  · intro slug m h
    unfold getOpenMatchByHostSlug at h
    dsimp only at h
    split at h
    · simp at h
    · have hp := List.find?_some h
      simp only [Bool.and_eq_true] at hp
      exact Option.isNone_iff_eq_none.mp hp.1.2
  · intro params hs hhs hne hnone
    have hA : strTruthy params.hostSlug = true := by
      rw [hhs]
      simp [strTruthy, hne]
    have hget : getOpenMatchByHostSlug srv (iccjSlugify (params.hostSlug.getD "")) =
        none := by
      rw [hhs]
      exact hnone
    unfold handleJoinMatch
    simp only [hA, if_true, hget]

/-- Witness for the amended C5: all three parts applied at concrete inputs. -/
theorem joinMatch_full_rejected_witness :
    (strTruthy (none : Option String) = false ∧ (100 : MatchId) ≠ 0 ∧
      getMatchByID demoSrv 100 = some demoMatch ∧ demoMatch.guest.isSome = true ∧
      handleJoinMatch demoSrv bobConn { matchID := some 100 } =
        { reply := { errorMessage := some "Match is full!" }, srv := demoSrv,
          conn := bobConn }) ∧
    (getOpenMatchByHostSlug openSrv "alice" = some openMatch ∧
      openMatch.guest = none) ∧
    ("alice" ≠ "" ∧ getOpenMatchByHostSlug demoSrv (iccjSlugify "alice") = none ∧
      handleJoinMatch demoSrv bobConn { hostSlug := some "alice" } =
        { reply := { errorMessage := some "Match not found!" }, srv := demoSrv,
          conn := bobConn }) :=
  ⟨⟨rfl, by decide, by decide, by decide,
    (@joinMatch_full_rejected Nat demoSrv bobConn).1 { matchID := some 100 } 100
      demoMatch rfl rfl (by decide) (by decide) (by decide)⟩,
   ⟨by decide,
    (@joinMatch_full_rejected Nat openSrv bobConn).2.1 "alice" openMatch (by decide)⟩,
   ⟨by decide, by decide,
    (@joinMatch_full_rejected Nat demoSrv bobConn).2.2 { hostSlug := some "alice" }
      "alice" rfl (by decide) (by decide)⟩⟩

/-! ## C6: slug derivation and case-insensitive resolution -/

/-- C6: the slug is derived by trimming, lowercasing and collapsing
non-alphanumerics to dashes — display name "Alice " yields slug "alice";
creating a match under that name and then joining with hostSlug "ALICE"
(differing only in case) resolves the very same open match (same id, no
duplicate match created) and seats the guest. -/
theorem slug_case_insensitive_resolution :
    iccjSlugify "Alice " = "alice" ∧ iccjSlugify "ALICE" = "alice" ∧
    (handleCreateMatch slugSrv hostConn { playerName := some "Alice " }).reply.hostSlug =
      some "alice" ∧
    (handleCreateMatch slugSrv hostConn { playerName := some "Alice " }).reply.matchID =
      some 700 ∧
    (handleJoinMatch
        (handleCreateMatch slugSrv hostConn { playerName := some "Alice " }).srv
        bobConn { hostSlug := some "ALICE" }).reply.result = true ∧
    (handleJoinMatch
        (handleCreateMatch slugSrv hostConn { playerName := some "Alice " }).srv
        bobConn { hostSlug := some "ALICE" }).conn.matchId = some 700 ∧
    (handleJoinMatch
        (handleCreateMatch slugSrv hostConn { playerName := some "Alice " }).srv
        bobConn { hostSlug := some "ALICE" }).srv.matchList.length = 1 := by
  decide

/-! ## C7: EVENT_DICE_ROLL goes to everyone but the roller -/

theorem sendOthersList_covers {srv : SrvState S} {b : MsgBody} {ex pid : PlayerId}
    {q : Player} :
    ∀ {l : List PlayerId}, pid ∈ l → pid ≠ ex →
      getPlayerByID srv pid = some q → srv.clients.contains q.socketID = true →
      OutMsg.mk q.socketID b ∈ sendOthersList srv ex b l := by
  intro l
  induction l with
  | nil =>
    intro h
    simp at h
  | cons x rest ih =>
    intro hmem hne hq hc
    rw [sendOthersList]
    rcases List.mem_cons.mp hmem with h1 | h2
    · subst h1
      rw [if_neg (by simpa using hne)]
      simp only [hq]
      unfold sendPlayerMessage
      rw [if_pos hc]
      exact List.mem_append_left _ (List.mem_singleton.mpr rfl)
    · exact List.mem_append_right _ (ih h2 hne hq hc)

theorem sendOthersList_no_echo {srv : SrvState S} {b : MsgBody} {ex : PlayerId}
    {s : Nat} :
    ∀ {l : List PlayerId},
      (∀ pid ∈ l, pid ≠ ex → ∀ q, getPlayerByID srv pid = some q → q.socketID ≠ s) →
      ∀ om ∈ sendOthersList srv ex b l, om.socketId ≠ s := by
  intro l
  induction l with
  | nil =>
    intro _ om h
    simp [sendOthersList] at h
  | cons x rest ih =>
    intro hall om hmem
    rw [sendOthersList] at hmem
    rcases List.mem_append.mp hmem with h1 | h2
    · by_cases he : (x == ex) = true
      · rw [if_pos he] at h1
        simp at h1
      · rw [if_neg he] at h1
        cases hq : getPlayerByID srv x with
        | none =>
          simp only [hq] at h1
          simp at h1
        | some p =>
          simp only [hq] at h1
          unfold sendPlayerMessage at h1
          by_cases hc : srv.clients.contains p.socketID = true
          · rw [if_pos hc, List.mem_singleton] at h1
            subst h1
            exact hall x (List.mem_cons_self _ _) (by simpa using he) p hq
          · rw [if_neg hc] at h1
            simp at h1
    · exact ih (fun pid hp => hall pid (List.mem_cons_of_mem _ hp)) om h2

/-- C7: an accepted ROLL_DICE request emits EVENT_DICE_ROLL to every
resolvable, connected match participant other than the roller, and the
broadcast never reaches the roller's socket (given that no other participant
shares it, sockets being per-connection). -/
theorem rollDice_broadcast {srv : SrvState S} {conn : Conn S}
    {m : Match S} {g : Game S} {player tp : Player} {rule : Rule S} {r : HResult S}
    (hm : getSocketMatch srv conn = some m)
    (hg : m.currentGame = some g)
    (hstart : g.hasStarted = true)
    (hp : getSocketPlayer srv conn = some player)
    (htp : g.turnPlayer = some tp) (htpid : tp.id = player.id)
    (hdice : g.turnDice = none)
    (hrule : getSocketRule conn = some rule)
    (hr : handleRollDice srv conn = r) :
    r.reply.result = true ∧
    (∀ pid ∈ m.players, pid ≠ player.id →
       ∀ q, getPlayerByID srv pid = some q →
         srv.clients.contains q.socketID = true →
         OutMsg.mk q.socketID { event := "EVENT_DICE_ROLL" } ∈ r.sends) ∧
    ((∀ pid ∈ m.players, pid ≠ player.id →
        ∀ q, getPlayerByID srv pid = some q → q.socketID ≠ player.socketID) →
      ∀ om ∈ r.sends, om.socketId ≠ player.socketID) := by
  subst hr
  unfold handleRollDice handleRollDiceCore Core.toResult
  simp only [hm, hg, hstart, hp, htp, htpid, hdice, hrule, Game.diceWasRolled,
    Option.isSome_none, Bool.not_true, Bool.false_eq_true, if_false, bne_self_eq_false]
  refine ⟨trivial, ?_, ?_⟩
  · intro pid hmem hne q hq hc
    refine sendOthersList_covers ?_ hne ?_ ?_
    · exact hmem
    · exact hq
    · exact hc
  · intro hdistinct om hmem
    refine sendOthersList_no_echo ?_ om hmem
    exact hdistinct

/-- Witness for C7 at the fresh-turn fixture. -/
theorem rollDice_broadcast_witness :
    (getSocketMatch rollSrv aliceRollConn = some rollMatch ∧
      rollMatch.currentGame = some rollGame ∧ rollGame.hasStarted = true ∧
      getSocketPlayer rollSrv aliceRollConn = some alicePlayer ∧
      rollGame.turnPlayer = some alicePlayer ∧ alicePlayer.id = alicePlayer.id ∧
      rollGame.turnDice = none ∧ getSocketRule aliceRollConn = some demoRule) ∧
    ((handleRollDice rollSrv aliceRollConn).reply.result = true ∧
      (∀ pid ∈ rollMatch.players, pid ≠ alicePlayer.id →
         ∀ q, getPlayerByID rollSrv pid = some q →
           rollSrv.clients.contains q.socketID = true →
           OutMsg.mk q.socketID { event := "EVENT_DICE_ROLL" } ∈
             (handleRollDice rollSrv aliceRollConn).sends) ∧
      ((∀ pid ∈ rollMatch.players, pid ≠ alicePlayer.id →
          ∀ q, getPlayerByID rollSrv pid = some q →
            q.socketID ≠ alicePlayer.socketID) →
        ∀ om ∈ (handleRollDice rollSrv aliceRollConn).sends,
          om.socketId ≠ alicePlayer.socketID)) :=
  ⟨⟨by decide, rfl, rfl, by decide, rfl, rfl, rfl, rfl⟩,
   @rollDice_broadcast Nat rollSrv aliceRollConn rollMatch rollGame alicePlayer
     alicePlayer demoRule (handleRollDice rollSrv aliceRollConn)
     (by decide) rfl rfl (by decide) rfl rfl rfl rfl rfl⟩

/-! ## C8: CREATE_GUEST reconnection -/

theorem getMatchByID_updatePlayer (srv : SrvState S) (p : Player) (mid : MatchId) :
    getMatchByID (updatePlayer srv p) mid = getMatchByID srv mid := rfl

/-- C8: a CREATE_GUEST request carrying the stable id of an existing player
whose current match exists and is not over rebinds the unbound connection to
that same player, match and the rule loaded under the match's rule name,
creates no new Player, Match or Game (registry sizes and the match registry
itself unchanged, id supply untouched), and marks the reply as a
reconnection. -/
theorem createGuest_reconnects {srv : SrvState S} {conn : Conn S}
    {params : CreateGuestParams} {pid : PlayerId} {q : Player} {cm : MatchId}
    {m : Match S} {r : HResult S}
    (hunbound : conn.player = none)
    (hpid : params.playerID = some pid) (hpid0 : pid ≠ 0)
    (hq : getPlayerByID srv pid = some q)
    (hcm : q.currentMatch = some cm)
    (hm : getMatchByID srv cm = some m)
    (hover : m.isOver = false)
    (hr : handleCreateGuest srv conn params = r) :
    r.reply.result = true ∧ r.reply.reconnected = some true ∧
    r.conn.player = some pid ∧ r.conn.matchId = some m.id ∧
    r.conn.rule = some (srv.rules m.ruleName) ∧
    r.srv.matchList = srv.matchList ∧
    r.srv.players.length = srv.players.length ∧
    r.srv.seq = srv.seq ∧ r.threw = false := by
  subst hr
  have hcond : (conn.player.isNone && numTruthy params.playerID) = true := by
    rw [hunbound, hpid]
    simp [numTruthy, hpid0]
  have hqid : q.id = pid := getPlayerByID_id hq
  have hget : getPlayerByID srv (params.playerID.getD 0) = some q := by
    rw [hpid]
    exact hq
  unfold handleCreateGuest
  simp only [hcond, if_true, hget]
  by_cases hdn :
      (match params.playerName with
       | some pn => iccjSafeDisplayName pn
       | none => "") ≠ ""
  · rw [if_pos hdn]
    simp only [hcm, getMatchByID_updatePlayer, hm, hover, Bool.not_false, if_true]
    simp [updatePlayer, hqid]
  · rw [if_neg hdn]
    simp only [hcm, getMatchByID_updatePlayer, hm, hover, Bool.not_false, if_true]
    simp [updatePlayer, hqid]

/-- Witness for C8: Alice reconnects by stable id into her running match. -/
theorem createGuest_reconnects_witness :
    (freshConn.player = none ∧ (1 : PlayerId) ≠ 0 ∧
      getPlayerByID demoSrv 1 = some alicePlayer ∧
      alicePlayer.currentMatch = some 100 ∧
      getMatchByID demoSrv 100 = some demoMatch ∧ demoMatch.isOver = false) ∧
    (let r := handleCreateGuest demoSrv freshConn { playerID := some 1 };
     r.reply.result = true ∧ r.reply.reconnected = some true ∧
     r.conn.player = some 1 ∧ r.conn.matchId = some demoMatch.id ∧
     r.conn.rule = some (demoSrv.rules demoMatch.ruleName) ∧
     r.srv.matchList = demoSrv.matchList ∧
     r.srv.players.length = demoSrv.players.length ∧
     r.srv.seq = demoSrv.seq ∧ r.threw = false) :=
  ⟨⟨rfl, by decide, by decide, rfl, by decide, rfl⟩,
   @createGuest_reconnects Nat demoSrv freshConn { playerID := some 1 } 1 alicePlayer
     100 demoMatch (handleCreateGuest demoSrv freshConn { playerID := some 1 })
     rfl rfl (by decide) (by decide) rfl (by decide) rfl rfl⟩

/-! ## C2: undo restores the roll-time snapshot -/

/-- MOVE_PIECE never touches the roll-time snapshot: accepted moves replace
the board state and bump the counter but copy the snapshot over, and every
rejection (or apply-time failure) leaves the registries untouched. -/
theorem stepMove_snapInv {mid : MatchId} {s0 : S} {st : SrvState S × Conn S}
    (h : SnapInv mid s0 st) (p : MovePieceParams) : SnapInv mid s0 (stepMove st p) := by
  obtain ⟨hmid, m, g, hm, hg, hsnap⟩ := h
  have hsm : getSocketMatch st.1 st.2 = some m := by
    unfold getSocketMatch
    rw [hmid]
    exact hm
  refine ⟨hmid, ?_⟩
  show ∃ m' g', getMatchByID (handleMovePiece st.1 st.2 p).srv mid = some m' ∧
    m'.currentGame = some g' ∧ g'.stateSnapshot = some s0
  unfold handleMovePiece handleMovePieceCore Core.toResult
  simp only [hsm, hg]
  cases hpc : p.piece with
  | none => exact ⟨m, g, hm, hg, hsnap⟩
  | some pc =>
    dsimp only
    by_cases hseq : p.moveSequence < g.moveSequence
    · rw [if_pos hseq]
      exact ⟨m, g, hm, hg, hsnap⟩
    · rw [if_neg hseq]
      cases hrule : getSocketRule st.2 with
      | none => exact ⟨m, g, hm, hg, hsnap⟩
      | some rule =>
        cases hpl : getSocketPlayer st.1 st.2 with
        | none => exact ⟨m, g, hm, hg, hsnap⟩
        | some player =>
          dsimp only
          by_cases hv : rule.validateMove g player pc p.steps = true
          · rw [hv]
            simp only [Bool.not_true, Bool.false_eq_true, if_false]
            by_cases hlen :
                ((rule.getMoveActions g.state pc p.steps).length == 0) = true
            · rw [if_pos hlen]
              exact ⟨m, g, hm, hg, hsnap⟩
            · rw [if_neg hlen]
              cases happ :
                  rule.applyMoveActions g.state (rule.getMoveActions g.state pc p.steps) with
              | none => exact ⟨m, g, hm, hg, hsnap⟩
              | some st2 =>
                dsimp only
                exact ⟨_, _, getMatchByID_update_same hm rfl, rfl, hsnap⟩
          · have hv' : rule.validateMove g player pc p.steps = false := by
              simpa using hv
            rw [hv']
            simp only [Bool.not_false, if_true]
            exact ⟨m, g, hm, hg, hsnap⟩

theorem applyMoves_snapInv {mid : MatchId} {s0 : S} {ps : List MovePieceParams} :
    ∀ {st : SrvState S × Conn S}, SnapInv mid s0 st →
      SnapInv mid s0 (applyMoves st ps) := by
  induction ps with
  | nil =>
    intro st h
    exact h
  | cons p rest ih =>
    intro st h
    exact ih (stepMove_snapInv h p)

/-- An accepted ROLL_DICE establishes the invariant: the snapshot taken at
the roll is exactly the board state at the moment of the roll. -/
theorem rollDice_establishes_snapInv {srv : SrvState S} {conn : Conn S}
    {mid : MatchId} {m : Match S} {g : Game S}
    (hmid : conn.matchId = some mid)
    (hm : getMatchByID srv mid = some m)
    (hg : m.currentGame = some g)
    (hres : (handleRollDice srv conn).reply.result = true) :
    SnapInv mid g.state
      ((handleRollDice srv conn).srv, (handleRollDice srv conn).conn) := by
  have hsm : getSocketMatch srv conn = some m := by
    unfold getSocketMatch
    rw [hmid]
    exact hm
  have hmidm := getMatchByID_id hm
  refine ⟨hmid, ?_⟩
  revert hres
  show (handleRollDice srv conn).reply.result = true →
    ∃ m' g', getMatchByID (handleRollDice srv conn).srv mid = some m' ∧
      m'.currentGame = some g' ∧ g'.stateSnapshot = some g.state
  unfold handleRollDice handleRollDiceCore Core.toResult
  simp only [hsm, hg]
  repeat' split
  all_goals intro hres
  any_goals simp at hres
  exact ⟨_, _, getMatchByID_updateMatch hm hmidm, rfl, rfl⟩

/-- An accepted UNDO_MOVES under the invariant restores the snapshot: the
current game's state afterwards is (a value copy of) `s0`, and the retained
snapshot is still `s0`. -/
theorem undoMoves_restores {srv : SrvState S} {conn : Conn S} {mid : MatchId} {s0 : S}
    (hinv : SnapInv mid s0 (srv, conn))
    (hres : (handleUndoMoves srv conn).reply.result = true) :
    ∃ m' g', getMatchByID (handleUndoMoves srv conn).srv mid = some m' ∧
      m'.currentGame = some g' ∧ g'.state = s0 ∧ g'.stateSnapshot = some s0 := by
  obtain ⟨hmid, m, g, hm, hg, hsnap⟩ := hinv
  have hsm : getSocketMatch srv conn = some m := by
    unfold getSocketMatch
    rw [hmid]
    exact hm
  revert hres
  unfold handleUndoMoves handleUndoMovesCore Core.toResult
  simp only [hsm, hg]
  repeat' split
  all_goals intro hres
  any_goals simp at hres
  refine ⟨{ m with currentGame := some (Game.restoreState g) }, Game.restoreState g,
    getMatchByID_update_same hm rfl, rfl, ?_, ?_⟩
  · unfold Game.restoreState
    simp only [hsnap]
  · unfold Game.restoreState
    simp only [hsnap]

/-- C2: for every turn in which dice were rolled (the roll accepted on a
bound connection, snapshotting the board state `g.state`) and any number of
MOVE_PIECE requests were then dispatched, an accepted UNDO_MOVES leaves the
game's board state equal to the snapshot captured at that roll; the retained
snapshot is an independent value, so it still equals the roll-time state as
well (value copies cannot alias). -/
theorem undo_restores_roll_snapshot {srv : SrvState S} {conn : Conn S}
    {mid : MatchId} {m : Match S} {g : Game S} (ps : List MovePieceParams)
    (hmid : conn.matchId = some mid)
    (hm : getMatchByID srv mid = some m)
    (hg : m.currentGame = some g)
    (hroll : (handleRollDice srv conn).reply.result = true)
    (hundo : (handleUndoMoves
        (applyMoves ((handleRollDice srv conn).srv, (handleRollDice srv conn).conn)
          ps).1
        (applyMoves ((handleRollDice srv conn).srv, (handleRollDice srv conn).conn)
          ps).2).reply.result = true) :
    ∃ m' g',
      getMatchByID
        (handleUndoMoves
          (applyMoves ((handleRollDice srv conn).srv, (handleRollDice srv conn).conn)
            ps).1
          (applyMoves ((handleRollDice srv conn).srv, (handleRollDice srv conn).conn)
            ps).2).srv mid = some m' ∧
      m'.currentGame = some g' ∧ g'.state = g.state ∧
      g'.stateSnapshot = some g.state := by
  have h1 := rollDice_establishes_snapInv hmid hm hg hroll
  have h2 : SnapInv mid g.state
      (applyMoves ((handleRollDice srv conn).srv, (handleRollDice srv conn).conn) ps) :=
    applyMoves_snapInv h1
  exact undoMoves_restores h2 hundo

/-- Witness for C2: on the fresh-turn fixture, roll (snapshotting state 7),
make two accepted moves (state 8 then 9), undo — the restored state is 7. -/
theorem undo_restores_roll_snapshot_witness :
    (aliceRollConn.matchId = some 110 ∧
      getMatchByID rollSrv 110 = some rollMatch ∧
      rollMatch.currentGame = some rollGame ∧
      (handleRollDice rollSrv aliceRollConn).reply.result = true ∧
      (handleUndoMoves
        (applyMoves
          ((handleRollDice rollSrv aliceRollConn).srv,
            (handleRollDice rollSrv aliceRollConn).conn) [wMove1, wMove2]).1
        (applyMoves
          ((handleRollDice rollSrv aliceRollConn).srv,
            (handleRollDice rollSrv aliceRollConn).conn)
          [wMove1, wMove2]).2).reply.result = true) ∧
    (∃ m' g',
      getMatchByID
        (handleUndoMoves
          (applyMoves
            ((handleRollDice rollSrv aliceRollConn).srv,
              (handleRollDice rollSrv aliceRollConn).conn) [wMove1, wMove2]).1
          (applyMoves
            ((handleRollDice rollSrv aliceRollConn).srv,
              (handleRollDice rollSrv aliceRollConn).conn)
            [wMove1, wMove2]).2).srv 110 = some m' ∧
      m'.currentGame = some g' ∧ g'.state = rollGame.state ∧
      g'.stateSnapshot = some rollGame.state) :=
  ⟨⟨rfl, by decide, rfl, by decide, by decide⟩,
   @undo_restores_roll_snapshot Nat rollSrv aliceRollConn 110 rollMatch rollGame
     [wMove1, wMove2] rfl (by decide) rfl (by decide) (by decide)⟩

end BG
